import Mathlib

/-!
# house-price-predictor: the form front end (go-streamlit/main.go)

A shallow embedding of the two HTTP handlers of `main` and of
`callPredictionAPI`, followed by the properties of the request/response
mediation layer.

Modelling conventions.

* Go `int` fields are only copied, never computed with, and are carried as `Int`.
* A Go `float64` is an `F64`: a finite value, carried as the rational number
  it is written as, or one of the three non-finite classes.
* A Go `string` is a Lean `String` (a sequence of Unicode scalar values, that
  is, well-formed UTF-8).
* A Go `map[string]float64` is an association list in the order of the source
  literal; a `[]float64` is a `List F64`.
* A `*PredictionResponse` is an `Option PredictionResponse` (`none` is `nil`),
  an `error` is an `Option String` (`none` is `nil`).
* What the libraries and the network answer during one request (gin's form
  binder, `http.Client.Post`, `io.ReadAll`, `json.Unmarshal`, the Unicode case
  table) is a `World`; the handlers are functions of the startup
  configuration and of the world, and they return the rendered status, the
  page data and the trace of the outbound calls they made.
* The trace is kept by the HTTP client: every call of `client.Post` goes
  through `clientPost`, which records the call and adds the POST requests the
  client put on the wire for it (none for a URL that does not parse, one more
  for each 307 or 308 redirect it follows).
-/

namespace HousePrice

/-! ## Values -/

/-- A float64 value. `finite q` is the finite float64 written as the rational
`q`; the other three are the non-finite values. -/
inductive F64 where
  | finite (q : ℚ)
  | posInf
  | negInf
  | nan
  deriving DecidableEq

/-- The test `!math.IsInf(f, 0) && !math.IsNaN(f)`. -/
def F64.isFinite : F64 → Bool
  | .finite _ => true
  | _ => false

/-- The comparison `a <= b` of two float64 values: false as soon as one side
is NaN. -/
def F64.le : F64 → F64 → Bool
  | .nan, _ => false
  | _, .nan => false
  | .negInf, _ => true
  | _, .posInf => true
  | .finite a, .finite b => decide (a ≤ b)
  | .finite _, .negInf => false
  | .posInf, .finite _ => false
  | .posInf, .negInf => false

/-- PredictionRequest represents the data sent to the prediction API. -/
structure PredictionRequest where
  Sqft : Int
  Bedrooms : Int
  Bathrooms : F64
  Location : String
  YearBuilt : Int
  Condition : String
  deriving DecidableEq

/-- PredictionResponse represents the response from the prediction API. -/
structure PredictionResponse where
  PredictedPrice : F64
  ConfidenceInterval : List F64
  FeaturesImportance : List (String × F64)
  PredictionTime : String
  deriving DecidableEq

/-- FormData represents the form data submitted by the user. -/
structure FormData where
  Sqft : Int
  Bedrooms : Int
  Bathrooms : F64
  Location : String
  YearBuilt : Int
  deriving DecidableEq

/-- The zero value of `FormData`, the content of `var formData FormData`. -/
def FormData.zero : FormData :=
  { Sqft := 0, Bedrooms := 0, Bathrooms := .finite 0, Location := "", YearBuilt := 0 }

/-- PageData represents the data passed to the template. Fields a composite
literal leaves out hold their zero value: `nil`, `false`, `""`. -/
structure PageData where
  Title : String
  Version : String
  Hostname : String
  IPAddress : String
  FormData : FormData
  Prediction : Option PredictionResponse := none
  ShowPrediction : Bool := false
  ErrorMessage : String := ""
  SuccessMessage : String := ""
  deriving DecidableEq

/-! ## Startup configuration -/

/-- The values `main` computes once before the router is built. -/
structure Config where
  port : String
  version : String
  apiURL : String
  hostname : String
  ipAddress : String
  deriving DecidableEq

/-- The first lines of `main`: environment variables with their defaults, the
host name and the fixed IP address. -/
def loadConfig (getenv : String → String) (osHostname : String) : Config :=
  { port := if getenv "PORT" = "" then "8080" else getenv "PORT"
    version := if getenv "APP_VERSION" = "" then "1.0.0" else getenv "APP_VERSION"
    apiURL := if getenv "API_URL" = "" then "http://localhost:8000/latest" else getenv "API_URL"
    hostname := osHostname
    ipAddress := "127.0.0.1" }

/-! ## Library functions used by the handlers -/

/-- `strings.HasSuffix(s, suffix)`. -/
def HasSuffix (s suffix : String) : Bool :=
  suffix.data.isSuffixOf s.data

/-- `strings.TrimSuffix(s, suffix)`: `s` without the trailing `suffix`, once,
or `s` itself when it does not end in `suffix`. -/
def TrimSuffix (s suffix : String) : String :=
  if HasSuffix s suffix then ⟨s.data.take (s.data.length - suffix.data.length)⟩ else s

/-- `unicode.ToLower(r)`: the ASCII range is decided by the code itself
(`if 'A' <= r && r <= 'Z' then r += 'a' - 'A'`), every other rune by the case
table `tbl` of the Unicode library. -/
def runeToLower (tbl : Char → Char) (r : Char) : Char :=
  if r.toNat < 128 then
    if 65 ≤ r.toNat ∧ r.toNat ≤ 90 then Char.ofNat (r.toNat + 32) else r
  else tbl r

/-- `strings.ToLower(s)`: every rune of `s` mapped by `unicode.ToLower`. -/
def ToLower (tbl : Char → Char) (s : String) : String :=
  ⟨s.data.map (runeToLower tbl)⟩

/-- The bytes `json.Marshal` produced for a request, carried as the record
they encode. -/
structure RequestBody where
  encoded : PredictionRequest
  deriving DecidableEq

/-- `json.Marshal(data)` for a `PredictionRequest`: integers and strings
always encode; a float64 that is NaN or infinite is an
`UnsupportedValueError`. -/
def jsonMarshal (data : PredictionRequest) : Except String RequestBody :=
  match data.Bathrooms with
  | .finite _ => .ok ⟨data⟩
  | .nan => .error "json: unsupported value: NaN"
  | .posInf => .error "json: unsupported value: +Inf"
  | .negInf => .error "json: unsupported value: -Inf"

/-- An `*http.Response` as far as the code reads it: the status code and what
`io.ReadAll(resp.Body)` gives. -/
structure Response where
  StatusCode : Int
  Body : Except String String

/-- One call of `client.Post(url, contentType, body)`. -/
structure OutboundPost where
  url : String
  contentType : String
  body : RequestBody
  deriving DecidableEq

/-- The answers of the libraries and of the network during one request. -/
structure World where
  /-- The case table behind `unicode.ToLower`, for runes above the ASCII range. -/
  unicodeToLower : Char → Char
  /-- What `c.ShouldBind(&formData)` does: the struct as the binder left it,
  and the binder's error. -/
  ShouldBind : FormData → FormData × Option String
  /-- What `client.Post` returns within its 10 second timeout, after the
  redirects the client followed. -/
  Post : String → String → RequestBody → Except String Response
  /-- The number of POST requests the client puts on the wire during that call
  of `client.Post`: none when the URL does not parse or no connection is made,
  one for a plain exchange, one more for each 307 or 308 redirect followed. -/
  Wire : String → String → RequestBody → Nat
  /-- What `json.Unmarshal(body, &prediction)` does on a zero-valued
  `PredictionResponse`: the decoded struct, or the decoding error. -/
  Unmarshal : String → Except String PredictionResponse

/-! ## callPredictionAPI -/

/-- An `http.Client` in use: the calls of `client.Post` made on it, in order,
and the number of POST requests it has put on the wire. -/
structure Client where
  posts : List OutboundPost
  wire : Nat
  deriving DecidableEq

/-- The client `&http.Client{Timeout: 10 * time.Second}`, not used yet. -/
def newClient : Client :=
  { posts := [], wire := 0 }

/-- The call `client.Post(url, contentType, body)`: the answer of the world,
and the client with the call recorded and the requests it sent counted. -/
def clientPost (w : World) (client : Client) (url contentType : String) (body : RequestBody) :
    Except String Response × Client :=
  (w.Post url contentType body,
    { posts := client.posts ++ [⟨url, contentType, body⟩]
      wire := client.wire + w.Wire url contentType body })

/-- The two results of `callPredictionAPI`, the calls of `client.Post` it made,
in order, and the number of POST requests that went on the wire. -/
structure CallResult where
  prediction : Option PredictionResponse
  err : Option String
  posts : List OutboundPost
  wire : Nat
  deriving DecidableEq

/-- The URL `fmt.Sprintf("%s/predict", strings.TrimSuffix(apiURL, "/"))`. -/
def predictURL (apiURL : String) : String :=
  TrimSuffix apiURL "/" ++ "/predict"

/-- The function `callPredictionAPI(apiURL, data)`. -/
def callPredictionAPI (w : World) (apiURL : String) (data : PredictionRequest) : CallResult :=
  let url := predictURL apiURL
  match jsonMarshal data with
  | .error e => ⟨none, some ("failed to marshal request data: " ++ e), [], 0⟩
  | .ok jsonData =>
    let client := newClient
    match clientPost w client url "application/json" jsonData with
    | (.error e, client) =>
      ⟨none, some ("API request failed: " ++ e), client.posts, client.wire⟩
    | (.ok resp, client) =>
      if resp.StatusCode ≠ 200 then
        ⟨none, some ("API returned status: " ++ toString resp.StatusCode),
          client.posts, client.wire⟩
      else
        match resp.Body with
        | .error e =>
          ⟨none, some ("failed to read response body: " ++ e), client.posts, client.wire⟩
        | .ok body =>
          match w.Unmarshal body with
          | .error e =>
            ⟨none, some ("failed to unmarshal response: " ++ e), client.posts, client.wire⟩
          | .ok prediction => ⟨some prediction, none, client.posts, client.wire⟩

/-! ## The handlers -/

/-- What a handler did: the status and template name given to `c.HTML`, the
page data, the invocations of `callPredictionAPI`, the calls of `client.Post`
and the number of POST requests that went on the wire. -/
structure HandlerResult where
  status : Nat
  template : String
  data : PageData
  apiCalls : List (String × PredictionRequest)
  posts : List OutboundPost
  wire : Nat
  deriving DecidableEq

/-- The form values of the home page. -/
def defaultFormData : FormData :=
  { Sqft := 0, Bedrooms := 1, Bathrooms := .finite 0, Location := "string", YearBuilt := 2023 }

/-- The handler of `GET /`. -/
def getHome (cfg : Config) : HandlerResult :=
  let data : PageData :=
    { Title := "House Price Prediction"
      Version := cfg.version
      Hostname := cfg.hostname
      IPAddress := cfg.ipAddress
      FormData := defaultFormData }
  ⟨200, "index.html", data, [], [], 0⟩

/-- The `apiData` literal of the `POST /predict` handler. -/
def apiData (tbl : Char → Char) (formData : FormData) : PredictionRequest :=
  { Sqft := formData.Sqft
    Bedrooms := formData.Bedrooms
    Bathrooms := formData.Bathrooms
    Location := ToLower tbl formData.Location
    YearBuilt := formData.YearBuilt
    Condition := "Good" }

/-- The mock data the `POST /predict` handler uses if the API fails. -/
def mockPrediction : PredictionResponse :=
  { PredictedPrice := .finite 467145
    ConfidenceInterval := [.finite 420430.5, .finite 513859.5]
    FeaturesImportance :=
      [("sqft", .finite 0.43), ("location", .finite 0.27), ("bathrooms", .finite 0.15)]
    PredictionTime := "0.12 seconds" }

/-- The handler of `POST /predict`. -/
def postPredict (cfg : Config) (w : World) : HandlerResult :=
  match w.ShouldBind FormData.zero with
  | (formData, some _) =>
    let data : PageData :=
      { Title := "House Price Prediction"
        Version := cfg.version
        Hostname := cfg.hostname
        IPAddress := cfg.ipAddress
        ErrorMessage := "Invalid form data"
        FormData := formData }
    ⟨400, "index.html", data, [], [], 0⟩
  | (formData, none) =>
    let apiData := apiData w.unicodeToLower formData
    let r := callPredictionAPI w cfg.apiURL apiData
    let prediction :=
      match r.err with
      | some _ => some mockPrediction
      | none => r.prediction
    let data : PageData :=
      { Title := "House Price Prediction"
        Version := cfg.version
        Hostname := cfg.hostname
        IPAddress := cfg.ipAddress
        FormData := formData
        Prediction := prediction
        ShowPrediction := true
        SuccessMessage := "Prediction completed successfully!" }
    ⟨200, "index.html", data, [(cfg.apiURL, apiData)], r.posts, r.wire⟩

/-- The two routes the claims are about. -/
inductive Route where
  | home
  | predict
  deriving DecidableEq

/-- The router: one request, with the world it runs in. -/
def handle (cfg : Config) (req : Route × World) : HandlerResult :=
  match req.1 with
  | .home => getHome cfg
  | .predict => postPredict cfg req.2

/-- The server on a sequence of requests: each is handled with the startup
configuration alone, no value is carried from one request to the next. -/
def serve (cfg : Config) (reqs : List (Route × World)) : List HandlerResult :=
  reqs.map (handle cfg)

/-! ## Worlds used as concrete inputs -/

/-- A startup configuration: the defaults of `main` on a host called `web-1`. -/
def demoConfig : Config :=
  loadConfig (fun _ => "") "web-1"

/-- A submitted form that binds: 1500 square feet in Austin. -/
def demoForm : FormData :=
  { Sqft := 1500, Bedrooms := 3, Bathrooms := .finite 2, Location := "Austin", YearBuilt := 2001 }

/-- A response a healthy prediction service sends. -/
def demoPrediction : PredictionResponse :=
  { PredictedPrice := .finite 310000
    ConfidenceInterval := [.finite 290000, .finite 330000]
    FeaturesImportance := [("sqft", .finite 0.5)]
    PredictionTime := "3 ms" }

/-- The body a healthy prediction service sends for `demoPrediction`. -/
def demoBody : String :=
  "\x7b\"predicted_price\":310000,\"confidence_interval\":[290000,330000],\"features_importance\":\x7b\"sqft\":0.5\x7d,\"prediction_time\":\"3 ms\"\x7d"

/-- A response whose interval is written high first. -/
def reversedPrediction : PredictionResponse :=
  { PredictedPrice := .finite 100
    ConfidenceInterval := [.finite 5, .finite 1]
    FeaturesImportance := []
    PredictionTime := "1 ms" }

/-- The body that carries `reversedPrediction`. -/
def reversedBody : String :=
  "\x7b\"predicted_price\":100,\"confidence_interval\":[5,1],\"features_importance\":\x7b\x7d,\"prediction_time\":\"1 ms\"\x7d"

/-- The decoder on the two bodies above: `demoBody` decodes to
`demoPrediction`, `reversedBody` to `reversedPrediction`, anything else is a
syntax error. -/
def demoUnmarshal (body : String) : Except String PredictionResponse :=
  if body = demoBody then .ok demoPrediction
  else if body = reversedBody then .ok reversedPrediction
  else .error "invalid character"

/-- The case table on the runes the concrete forms use: the ASCII runes never
reach the table, and the mathematical bold capital U+1D400 has no entry in the
case table of the Unicode library, which gives the rune back as it is. -/
def demoCaseTable (r : Char) : Char := r

/-- The form is `form`, the service answers with `status` and `body`. -/
def answeringWorld (form : FormData) (status : Int) (body : String) : World :=
  { unicodeToLower := demoCaseTable
    ShouldBind := fun _ => (form, none)
    Post := fun _ _ _ => .ok { StatusCode := status, Body := .ok body }
    Wire := fun _ _ _ => 1
    Unmarshal := demoUnmarshal }

/-- The service answers the POST with a 307 redirect; the client sends the
POST again to the new address and gets 200 with `demoBody`: two POST requests
go on the wire during the one call of `client.Post`. -/
def redirectWorld (form : FormData) : World :=
  { unicodeToLower := demoCaseTable
    ShouldBind := fun _ => (form, none)
    Post := fun _ _ _ => .ok { StatusCode := 200, Body := .ok demoBody }
    Wire := fun _ _ _ => 2
    Unmarshal := demoUnmarshal }

/-- The service is down: the connection is refused, no request is sent. -/
def unreachableWorld (form : FormData) : World :=
  { unicodeToLower := demoCaseTable
    ShouldBind := fun _ => (form, none)
    Post := fun _ _ _ => .error "connection refused"
    Wire := fun _ _ _ => 0
    Unmarshal := demoUnmarshal }

/-- The submitted `bedrooms` is not a number: the binder has written `sqft`
and fails on the second field. -/
def malformedWorld : World :=
  { unicodeToLower := demoCaseTable
    ShouldBind := fun formData =>
      ({ formData with Sqft := 1500 }, some "strconv.ParseInt: parsing \"abc\": invalid syntax")
    Post := fun _ _ _ => .error "connection refused"
    Wire := fun _ _ _ => 0
    Unmarshal := demoUnmarshal }

/-! ## The property of an interval, and further concrete inputs -/

/-- The interval is an ordered pair: exactly two values, the first at most
the second. -/
def orderedPair (ci : List F64) : Bool :=
  match ci with
  | [low, high] => F64.le low high
  | _ => false

/-- A form whose `bathrooms` field was submitted as `NaN`. -/
def nanForm : FormData :=
  { Sqft := 1500, Bedrooms := 3, Bathrooms := .nan, Location := "Austin", YearBuilt := 2001 }

/-- A form with negative numbers, which the binder accepts. -/
def negativeForm : FormData :=
  { Sqft := -20, Bedrooms := -1, Bathrooms := .finite 1.5, Location := "Austin",
    YearBuilt := -500 }

/-- Two ranges of `unicode.Upper`, the table behind `unicode.IsUpper`: the
letters `A` to `Z` and the mathematical bold capitals U+1D400 to U+1D419. A
rune in one of them is an upper-case letter; the other ranges of the table are
not modelled. -/
def inUpperRanges (r : Char) : Bool :=
  (65 ≤ r.toNat ∧ r.toNat ≤ 90) ∨ (0x1D400 ≤ r.toNat ∧ r.toNat ≤ 0x1D419)

/-- A form whose location is the one rune U+1D400, mathematical bold capital A. -/
def boldForm : FormData :=
  { Sqft := 1500, Bedrooms := 3, Bathrooms := .finite 2, Location := ⟨[Char.ofNat 0x1D400]⟩,
    YearBuilt := 2001 }

/-! ## Lemmas on callPredictionAPI and the handlers -/

/-- A request with a finite `Bathrooms` serialises to its own encoding. -/
lemma jsonMarshal_of_finite (d : PredictionRequest) (h : d.Bathrooms.isFinite = true) :
    jsonMarshal d = .ok ⟨d⟩ := by
  unfold jsonMarshal
  cases hb : d.Bathrooms <;> simp_all [F64.isFinite]

/-- A request with a non-finite `Bathrooms` does not serialise. -/
lemma jsonMarshal_of_not_finite (d : PredictionRequest) (h : d.Bathrooms.isFinite = false) :
    ∃ e, jsonMarshal d = .error e := by
  unfold jsonMarshal
  cases hb : d.Bathrooms <;> simp_all [F64.isFinite]

/-- The function `callPredictionAPI` on a request that serialises: the one
call of `client.Post` is recorded, and the result follows the answer. -/
lemma callPredictionAPI_of_finite (w : World) (apiURL : String) (d : PredictionRequest)
    (hfin : d.Bathrooms.isFinite = true) :
    callPredictionAPI w apiURL d =
      match w.Post (predictURL apiURL) "application/json" ⟨d⟩ with
      | .error e =>
        ⟨none, some ("API request failed: " ++ e),
          [⟨predictURL apiURL, "application/json", ⟨d⟩⟩],
          w.Wire (predictURL apiURL) "application/json" ⟨d⟩⟩
      | .ok resp =>
        if resp.StatusCode ≠ 200 then
          ⟨none, some ("API returned status: " ++ toString resp.StatusCode),
            [⟨predictURL apiURL, "application/json", ⟨d⟩⟩],
            w.Wire (predictURL apiURL) "application/json" ⟨d⟩⟩
        else
          match resp.Body with
          | .error e =>
            ⟨none, some ("failed to read response body: " ++ e),
              [⟨predictURL apiURL, "application/json", ⟨d⟩⟩],
              w.Wire (predictURL apiURL) "application/json" ⟨d⟩⟩
          | .ok body =>
            match w.Unmarshal body with
            | .error e =>
              ⟨none, some ("failed to unmarshal response: " ++ e),
                [⟨predictURL apiURL, "application/json", ⟨d⟩⟩],
                w.Wire (predictURL apiURL) "application/json" ⟨d⟩⟩
            | .ok prediction =>
              ⟨some prediction, none,
                [⟨predictURL apiURL, "application/json", ⟨d⟩⟩],
                w.Wire (predictURL apiURL) "application/json" ⟨d⟩⟩ := by
  unfold callPredictionAPI
  simp only [jsonMarshal_of_finite d hfin, clientPost, newClient, List.nil_append, Nat.zero_add]
  cases w.Post (predictURL apiURL) "application/json" ⟨d⟩ <;> rfl

/-- The function `callPredictionAPI` on a request that does not serialise: it
returns before a client exists. -/
lemma callPredictionAPI_of_not_finite (w : World) (apiURL : String) (d : PredictionRequest)
    (hfin : d.Bathrooms.isFinite = false) :
    ∃ e, callPredictionAPI w apiURL d = ⟨none, some e, [], 0⟩ := by
  obtain ⟨e, he⟩ := jsonMarshal_of_not_finite d hfin
  exact ⟨"failed to marshal request data: " ++ e, by simp [callPredictionAPI, he]⟩

/-- The one way through `callPredictionAPI` that ends without an error: the
request serialises, the POST is answered with status 200, the body is read and
decodes; the result is then the decoded response and the single call. -/
lemma callPredictionAPI_of_decoded (w : World) (apiURL : String) (d : PredictionRequest)
    (resp : Response) (b : String) (p : PredictionResponse)
    (hfin : d.Bathrooms.isFinite = true)
    (hpost : w.Post (predictURL apiURL) "application/json" ⟨d⟩ = .ok resp)
    (hstatus : resp.StatusCode = 200) (hbody : resp.Body = .ok b)
    (hdec : w.Unmarshal b = .ok p) :
    callPredictionAPI w apiURL d
      = ⟨some p, none, [⟨predictURL apiURL, "application/json", ⟨d⟩⟩],
          w.Wire (predictURL apiURL) "application/json" ⟨d⟩⟩ := by
  rw [callPredictionAPI_of_finite w apiURL d hfin]
  simp [hpost, hstatus, hbody, hdec]

/-- The error of `callPredictionAPI` is nil exactly on the way of
`callPredictionAPI_of_decoded`. -/
lemma callPredictionAPI_err_eq_none_iff (w : World) (apiURL : String) (d : PredictionRequest) :
    (callPredictionAPI w apiURL d).err = none ↔
      d.Bathrooms.isFinite = true ∧
      ∃ resp b p, w.Post (predictURL apiURL) "application/json" ⟨d⟩ = .ok resp ∧
        resp.StatusCode = 200 ∧ resp.Body = .ok b ∧ w.Unmarshal b = .ok p := by
  constructor
  · intro h
    cases hfin : d.Bathrooms.isFinite
    · obtain ⟨e, he⟩ := callPredictionAPI_of_not_finite w apiURL d hfin
      simp [he] at h
    · refine ⟨rfl, ?_⟩
      rw [callPredictionAPI_of_finite w apiURL d hfin] at h
      cases hpost : w.Post (predictURL apiURL) "application/json" ⟨d⟩ with
      | error e => simp [hpost] at h
      | ok resp =>
        simp only [hpost] at h
        by_cases hstatus : resp.StatusCode = 200
        · simp only [hstatus, ne_eq, not_true_eq_false, if_false] at h
          cases hbody : resp.Body with
          | error e => simp [hbody] at h
          | ok b =>
            simp only [hbody] at h
            cases hdec : w.Unmarshal b with
            | error e => simp [hdec] at h
            | ok p => exact ⟨resp, b, p, rfl, hstatus, hbody, hdec⟩
        · simp [hstatus] at h
  · rintro ⟨hfin, resp, b, p, hpost, hstatus, hbody, hdec⟩
    rw [callPredictionAPI_of_decoded w apiURL d resp b p hfin hpost hstatus hbody hdec]

/-- A nil error comes with a non-nil prediction. -/
lemma callPredictionAPI_prediction_of_nil_err (w : World) (apiURL : String)
    (d : PredictionRequest) (h : (callPredictionAPI w apiURL d).err = none) :
    (callPredictionAPI w apiURL d).prediction ≠ none := by
  obtain ⟨hfin, resp, b, p, hpost, hstatus, hbody, hdec⟩ :=
    (callPredictionAPI_err_eq_none_iff w apiURL d).1 h
  rw [callPredictionAPI_of_decoded w apiURL d resp b p hfin hpost hstatus hbody hdec]
  simp

/-- The calls of `client.Post` of one invocation: the single call with the
serialised request and the URL, or none when the request does not serialise. -/
lemma callPredictionAPI_posts (w : World) (apiURL : String) (d : PredictionRequest) :
    (callPredictionAPI w apiURL d).posts =
      if d.Bathrooms.isFinite then [⟨predictURL apiURL, "application/json", ⟨d⟩⟩] else [] := by
  cases hfin : d.Bathrooms.isFinite
  · obtain ⟨e, he⟩ := callPredictionAPI_of_not_finite w apiURL d hfin
    simp [he]
  · rw [callPredictionAPI_of_finite w apiURL d hfin]
    simp only [if_true]
    split
    · rfl
    · split
      · rfl
      · split
        · rfl
        · split <;> rfl

/-- The POST requests on the wire during one invocation: those the client sent
for the single call of `client.Post`, or none when there was no call. -/
lemma callPredictionAPI_wire (w : World) (apiURL : String) (d : PredictionRequest) :
    (callPredictionAPI w apiURL d).wire =
      if d.Bathrooms.isFinite then w.Wire (predictURL apiURL) "application/json" ⟨d⟩ else 0 := by
  cases hfin : d.Bathrooms.isFinite
  · obtain ⟨e, he⟩ := callPredictionAPI_of_not_finite w apiURL d hfin
    simp [he]
  · rw [callPredictionAPI_of_finite w apiURL d hfin]
    simp only [if_true]
    split
    · rfl
    · split
      · rfl
      · split
        · rfl
        · split <;> rfl

/-- The page data and the trace of `POST /predict` once the form is bound. -/
lemma postPredict_of_bound (cfg : Config) (w : World) (formData : FormData)
    (hbind : w.ShouldBind FormData.zero = (formData, none)) :
    postPredict cfg w =
      ⟨200, "index.html",
        { Title := "House Price Prediction"
          Version := cfg.version
          Hostname := cfg.hostname
          IPAddress := cfg.ipAddress
          FormData := formData
          Prediction :=
            match (callPredictionAPI w cfg.apiURL (apiData w.unicodeToLower formData)).err with
            | some _ => some mockPrediction
            | none => (callPredictionAPI w cfg.apiURL (apiData w.unicodeToLower formData)).prediction
          ShowPrediction := true
          SuccessMessage := "Prediction completed successfully!" },
        [(cfg.apiURL, apiData w.unicodeToLower formData)],
        (callPredictionAPI w cfg.apiURL (apiData w.unicodeToLower formData)).posts,
        (callPredictionAPI w cfg.apiURL (apiData w.unicodeToLower formData)).wire⟩ := by
  unfold postPredict
  rw [hbind]

/-- The prediction on the page when `callPredictionAPI` returned an error. -/
lemma postPredict_prediction_of_err (cfg : Config) (w : World) (formData : FormData)
    (hbind : w.ShouldBind FormData.zero = (formData, none))
    (herr : (callPredictionAPI w cfg.apiURL (apiData w.unicodeToLower formData)).err ≠ none) :
    (postPredict cfg w).data.Prediction = some mockPrediction := by
  rw [postPredict_of_bound cfg w formData hbind]
  cases h : (callPredictionAPI w cfg.apiURL (apiData w.unicodeToLower formData)).err with
  | none => exact absurd h herr
  | some e => simp [h]

/-- The prediction on the page when `callPredictionAPI` returned no error. -/
lemma postPredict_prediction_of_nil_err (cfg : Config) (w : World) (formData : FormData)
    (hbind : w.ShouldBind FormData.zero = (formData, none))
    (herr : (callPredictionAPI w cfg.apiURL (apiData w.unicodeToLower formData)).err = none) :
    (postPredict cfg w).data.Prediction =
      (callPredictionAPI w cfg.apiURL (apiData w.unicodeToLower formData)).prediction := by
  rw [postPredict_of_bound cfg w formData hbind]
  simp [herr]

/-- The result of `POST /predict` when the binder fails. -/
lemma postPredict_of_bind_error (cfg : Config) (w : World) (formData : FormData) (e : String)
    (hbind : w.ShouldBind FormData.zero = (formData, some e)) :
    postPredict cfg w =
      ⟨400, "index.html",
        { Title := "House Price Prediction"
          Version := cfg.version
          Hostname := cfg.hostname
          IPAddress := cfg.ipAddress
          ErrorMessage := "Invalid form data"
          FormData := formData },
        [], [], 0⟩ := by
  unfold postPredict
  rw [hbind]

/-- The page of `POST /predict` for a bound form shows a non-nil prediction. -/
lemma bound_form_page (cfg : Config) (w : World) (formData : FormData)
    (hbind : w.ShouldBind FormData.zero = (formData, none)) :
    (postPredict cfg w).data.ShowPrediction = true ∧
    (postPredict cfg w).data.Prediction ≠ none := by
  constructor
  · rw [postPredict_of_bound cfg w formData hbind]
  · cases herr : (callPredictionAPI w cfg.apiURL (apiData w.unicodeToLower formData)).err with
    | none =>
      rw [postPredict_prediction_of_nil_err cfg w formData hbind herr]
      exact callPredictionAPI_prediction_of_nil_err _ _ _ herr
    | some e =>
      rw [postPredict_prediction_of_err cfg w formData hbind (by simp [herr])]
      simp

/-! ## Lemmas on strings -/

/-- The rune built from a number below the surrogate range has that number. -/
lemma toNat_ofNat_of_lt (n : Nat) (h : n < 55296) : (Char.ofNat n).toNat = n := by
  have hv : n.isValidChar := Or.inl h
  simp only [Char.ofNat, hv, Char.toNat, Char.ofNatAux, dite_true]
  rfl

/-- An ASCII rune goes out as an ASCII rune that is not one of `A` to `Z` and
that lower-casing leaves as it is, whatever the case table. -/
lemma runeToLower_ascii (tbl : Char → Char) (c : Char) (hlt : c.toNat < 128) :
    (runeToLower tbl c).toNat < 128 ∧
    ¬ (65 ≤ (runeToLower tbl c).toNat ∧ (runeToLower tbl c).toNat ≤ 90) ∧
    runeToLower tbl (runeToLower tbl c) = runeToLower tbl c := by
  by_cases hc : 65 ≤ c.toNat ∧ c.toNat ≤ 90
  · have h1 : runeToLower tbl c = Char.ofNat (c.toNat + 32) := by
      simp only [runeToLower, hlt, hc, and_self, if_true]
    have h2 : (Char.ofNat (c.toNat + 32)).toNat = c.toNat + 32 :=
      toNat_ofNat_of_lt _ (by omega)
    have h3 : (Char.ofNat (c.toNat + 32)).toNat < 128 := by omega
    have h4 : ¬ (65 ≤ (Char.ofNat (c.toNat + 32)).toNat ∧
        (Char.ofNat (c.toNat + 32)).toNat ≤ 90) := by omega
    rw [h1]
    refine ⟨h3, h4, ?_⟩
    simp only [runeToLower, h3, h4, if_true, if_false]
  · have h1 : runeToLower tbl c = c := by
      simp only [runeToLower, hlt, hc, if_true, if_false]
    rw [h1]
    exact ⟨hlt, hc, h1⟩

/-- A rune above the ASCII range goes out as the case table gives it. -/
lemma runeToLower_above_ascii (tbl : Char → Char) (c : Char) (h : 128 ≤ c.toNat) :
    runeToLower tbl c = tbl c := by
  have hlt : ¬ c.toNat < 128 := by omega
  simp only [runeToLower, hlt, if_false]

/-- Lower-casing an ASCII string gives an ASCII string without `A` to `Z`. -/
lemma ToLower_ascii_runes (tbl : Char → Char) (s : String)
    (hs : ∀ c ∈ s.data, c.toNat < 128) :
    ∀ c ∈ (ToLower tbl s).data, c.toNat < 128 ∧ ¬ (65 ≤ c.toNat ∧ c.toNat ≤ 90) := by
  intro c hc
  simp only [ToLower, List.mem_map] at hc
  obtain ⟨a, ha, rfl⟩ := hc
  exact ⟨(runeToLower_ascii tbl a (hs a ha)).1, (runeToLower_ascii tbl a (hs a ha)).2.1⟩

/-- Lower-casing a lower-cased ASCII string changes nothing. -/
lemma ToLower_ascii_idem (tbl : Char → Char) (s : String)
    (hs : ∀ c ∈ s.data, c.toNat < 128) :
    ToLower tbl (ToLower tbl s) = ToLower tbl s := by
  simp only [ToLower, List.map_map]
  congr 1
  apply List.map_congr_left
  intro a ha
  exact (runeToLower_ascii tbl a (hs a ha)).2.2

/-- A string ends in `suffix` when its runes end in those of `suffix`. -/
lemma HasSuffix_iff (s suffix : String) :
    HasSuffix s suffix = true ↔ suffix.data <:+ s.data := by
  simp [HasSuffix]

/-- Two lists that end in the same `t` are in the suffix relation exactly when
what stands before `t` is. -/
lemma suffix_append_right_iff (a l t : List Char) : a ++ t <:+ l ++ t ↔ a <:+ l := by
  constructor
  · rintro ⟨r, hr⟩
    refine ⟨r, ?_⟩
    rw [← List.append_assoc] at hr
    exact List.append_cancel_right hr
  · rintro ⟨r, hr⟩
    exact ⟨r, by rw [← List.append_assoc, hr]⟩

/-- Trimming the suffix that was just appended gives the string back. -/
lemma TrimSuffix_append (s suffix : String) : TrimSuffix (s ++ suffix) suffix = s := by
  have h : HasSuffix (s ++ suffix) suffix = true := by
    rw [HasSuffix_iff, String.data_append]
    exact List.suffix_append _ _
  simp [TrimSuffix, h]

/-- Trimming a suffix the string does not end in gives the string back. -/
lemma TrimSuffix_of_not_suffix (s suffix : String) (h : HasSuffix s suffix = false) :
    TrimSuffix s suffix = s := by
  simp [TrimSuffix, h]

/-- A string that ends in `suffix` is its trimmed form followed by `suffix`. -/
lemma TrimSuffix_append_of_suffix (s suffix : String) (h : HasSuffix s suffix = true) :
    TrimSuffix s suffix ++ suffix = s := by
  apply String.ext
  simp only [TrimSuffix, h, if_true, String.data_append]
  exact List.suffix_iff_eq_append.1 ((HasSuffix_iff s suffix).1 h)

/-- The URL ends in `//predict` exactly when the base address ends in `//`. -/
lemma predictURL_double_slash (apiURL : String) :
    HasSuffix (predictURL apiURL) "//predict" = HasSuffix apiURL "//" := by
  have key : ∀ t : String, HasSuffix (t ++ "/predict") "//predict" = HasSuffix t "/" := by
    intro t
    rw [Bool.eq_iff_iff, HasSuffix_iff, HasSuffix_iff, String.data_append]
    exact suffix_append_right_iff ['/'] t.data "/predict".data
  have key2 : ∀ t : String, HasSuffix (t ++ "/") "//" = HasSuffix t "/" := by
    intro t
    rw [Bool.eq_iff_iff, HasSuffix_iff, HasSuffix_iff, String.data_append]
    exact suffix_append_right_iff ['/'] t.data ['/']
  unfold predictURL
  rw [key]
  cases h : HasSuffix apiURL "/"
  · rw [TrimSuffix_of_not_suffix _ _ h, h]
    symm
    rw [Bool.eq_false_iff]
    intro h2
    rw [HasSuffix_iff] at h2
    have h3 : "/".data <:+ apiURL.data := List.IsSuffix.trans ⟨['/'], rfl⟩ h2
    rw [← HasSuffix_iff, h] at h3
    cases h3
  · have h2 := TrimSuffix_append_of_suffix apiURL "/" h
    conv_rhs => rw [← h2]
    rw [key2]

/-! ## The claims -/

/-- C1: in the `POST /predict` handler, for every bound form, whenever
`callPredictionAPI` returns an error the prediction in the page data is the
fixed literal (467145, [420430.5, 513859.5], sqft 0.43, location 0.27,
bathrooms 0.15, "0.12 seconds"), whatever the form holds; and a transport
failure, a status other than 200, an unreadable body and a body that does not
decode are each such an error. -/
theorem fallback_is_the_fixed_literal (cfg : Config) (w : World) (formData : FormData)
    (hbind : w.ShouldBind FormData.zero = (formData, none)) :
    ((callPredictionAPI w cfg.apiURL (apiData w.unicodeToLower formData)).err ≠ none →
      (postPredict cfg w).data.Prediction = some
        { PredictedPrice := .finite 467145
          ConfidenceInterval := [.finite 420430.5, .finite 513859.5]
          FeaturesImportance :=
            [("sqft", .finite 0.43), ("location", .finite 0.27), ("bathrooms", .finite 0.15)]
          PredictionTime := "0.12 seconds" }) ∧
    ((∃ e, w.Post (predictURL cfg.apiURL) "application/json"
          ⟨apiData w.unicodeToLower formData⟩ = .error e) →
      (callPredictionAPI w cfg.apiURL (apiData w.unicodeToLower formData)).err ≠ none) ∧
    (∀ resp, w.Post (predictURL cfg.apiURL) "application/json"
          ⟨apiData w.unicodeToLower formData⟩ = .ok resp →
      (resp.StatusCode ≠ 200 ∨ (∃ e, resp.Body = .error e) ∨
        (∃ b e, resp.Body = .ok b ∧ w.Unmarshal b = .error e)) →
      (callPredictionAPI w cfg.apiURL (apiData w.unicodeToLower formData)).err ≠ none) := by
  refine ⟨fun herr => postPredict_prediction_of_err cfg w formData hbind herr, ?_, ?_⟩
  · rintro ⟨e, he⟩ h
    obtain ⟨_, resp, b, p, hpost, _⟩ := (callPredictionAPI_err_eq_none_iff _ _ _).1 h
    rw [he] at hpost
    cases hpost
  · intro resp hresp hbad h
    obtain ⟨_, resp', b, p, hpost, hstatus, hbody, hdec⟩ :=
      (callPredictionAPI_err_eq_none_iff _ _ _).1 h
    rw [hresp] at hpost
    cases hpost
    rcases hbad with hs | ⟨e, he⟩ | ⟨b', e, hb', he⟩
    · exact hs hstatus
    · rw [he] at hbody
      cases hbody
    · rw [hb'] at hbody
      cases hbody
      rw [he] at hdec
      cases hdec

/-- C1 at a concrete input: the service is unreachable and the page shows the
fixed literal. -/
theorem fallback_is_the_fixed_literal_witness :
    (unreachableWorld demoForm).ShouldBind FormData.zero = (demoForm, none) ∧
    (postPredict demoConfig (unreachableWorld demoForm)).data.Prediction = some
      { PredictedPrice := .finite 467145
        ConfidenceInterval := [.finite 420430.5, .finite 513859.5]
        FeaturesImportance :=
          [("sqft", .finite 0.43), ("location", .finite 0.27), ("bathrooms", .finite 0.15)]
        PredictionTime := "0.12 seconds" } :=
  ⟨rfl,
    (fallback_is_the_fixed_literal demoConfig (unreachableWorld demoForm) demoForm rfl).1
      ((fallback_is_the_fixed_literal demoConfig (unreachableWorld demoForm) demoForm rfl).2.1
        ⟨"connection refused", rfl⟩)⟩

/-- C4: for every form that binds and every outcome of the remote call, the
`POST /predict` handler answers 200 with `ShowPrediction` true, a non-nil
prediction, an empty error message and the form exactly as bound. -/
theorem bound_form_renders_prediction (cfg : Config) (w : World) (formData : FormData)
    (hbind : w.ShouldBind FormData.zero = (formData, none)) :
    (postPredict cfg w).status = 200 ∧
    (postPredict cfg w).data.ShowPrediction = true ∧
    (postPredict cfg w).data.Prediction ≠ none ∧
    (postPredict cfg w).data.ErrorMessage = "" ∧
    (postPredict cfg w).data.FormData = formData := by
  refine ⟨?_, ?_, ?_, ?_, ?_⟩
  · rw [postPredict_of_bound cfg w formData hbind]
  · rw [postPredict_of_bound cfg w formData hbind]
  · cases herr : (callPredictionAPI w cfg.apiURL (apiData w.unicodeToLower formData)).err with
    | none =>
      rw [postPredict_prediction_of_nil_err cfg w formData hbind herr]
      exact callPredictionAPI_prediction_of_nil_err _ _ _ herr
    | some e =>
      rw [postPredict_prediction_of_err cfg w formData hbind (by simp [herr])]
      simp
  · rw [postPredict_of_bound cfg w formData hbind]
  · rw [postPredict_of_bound cfg w formData hbind]

/-- C4 at a concrete input: the form with location "Austin", the service
answering 200. -/
theorem bound_form_renders_prediction_witness :
    (answeringWorld demoForm 200 demoBody).ShouldBind FormData.zero = (demoForm, none) ∧
    (postPredict demoConfig (answeringWorld demoForm 200 demoBody)).status = 200 ∧
    (postPredict demoConfig (answeringWorld demoForm 200 demoBody)).data.ShowPrediction = true ∧
    (postPredict demoConfig (answeringWorld demoForm 200 demoBody)).data.Prediction ≠ none ∧
    (postPredict demoConfig (answeringWorld demoForm 200 demoBody)).data.ErrorMessage = "" ∧
    (postPredict demoConfig (answeringWorld demoForm 200 demoBody)).data.FormData.Location = "Austin" :=
  ⟨rfl,
    (bound_form_renders_prediction demoConfig (answeringWorld demoForm 200 demoBody) demoForm rfl).1,
    (bound_form_renders_prediction demoConfig (answeringWorld demoForm 200 demoBody) demoForm rfl).2.1,
    (bound_form_renders_prediction demoConfig (answeringWorld demoForm 200 demoBody) demoForm rfl).2.2.1,
    (bound_form_renders_prediction demoConfig (answeringWorld demoForm 200 demoBody) demoForm rfl).2.2.2.1,
    by rw [(bound_form_renders_prediction demoConfig (answeringWorld demoForm 200 demoBody) demoForm
      rfl).2.2.2.2]; rfl⟩

/-- C5: for every submission whose binding fails, the `POST /predict` handler
answers 400 with the error message "Invalid form data", `ShowPrediction`
false, a nil prediction, an empty success message and the form as the binder
left it; `callPredictionAPI` is not invoked and no POST is issued. -/
theorem bind_error_renders_bad_request (cfg : Config) (w : World) (written : FormData)
    (e : String) (hbind : w.ShouldBind FormData.zero = (written, some e)) :
    (postPredict cfg w).status = 400 ∧
    (postPredict cfg w).data.ErrorMessage = "Invalid form data" ∧
    (postPredict cfg w).data.ErrorMessage ≠ "" ∧
    (postPredict cfg w).data.ShowPrediction = false ∧
    (postPredict cfg w).data.Prediction = none ∧
    (postPredict cfg w).data.SuccessMessage = "" ∧
    (postPredict cfg w).data.FormData = written ∧
    (postPredict cfg w).apiCalls = [] ∧
    (postPredict cfg w).posts = [] := by
  rw [postPredict_of_bind_error cfg w written e hbind]
  refine ⟨rfl, rfl, ?_, rfl, rfl, rfl, rfl, rfl, rfl⟩
  show "Invalid form data" ≠ ""
  decide

/-- C5 at a concrete input: `bedrooms` is not a number, `sqft` was written. -/
theorem bind_error_renders_bad_request_witness :
    (postPredict demoConfig malformedWorld).status = 400 ∧
    (postPredict demoConfig malformedWorld).data.FormData.Sqft = 1500 ∧
    (postPredict demoConfig malformedWorld).posts = [] :=
  ⟨(bind_error_renders_bad_request demoConfig malformedWorld
      { FormData.zero with Sqft := 1500 } _ rfl).1,
    by rw [(bind_error_renders_bad_request demoConfig malformedWorld
      { FormData.zero with Sqft := 1500 } _ rfl).2.2.2.2.2.2.1],
    (bind_error_renders_bad_request demoConfig malformedWorld
      { FormData.zero with Sqft := 1500 } _ rfl).2.2.2.2.2.2.2.2⟩

/-- C6: in the page data of every handler path (`GET /`, `POST /predict` with a
bind error, with a prediction or with the fallback) the prediction is non-nil
if and only if `ShowPrediction` is true; and `callPredictionAPI` returns a
non-nil pointer whenever it returns a nil error. -/
theorem prediction_shown_iff_present (cfg : Config) (w : World) :
    (∀ route, (handle cfg (route, w)).data.Prediction ≠ none ↔
      (handle cfg (route, w)).data.ShowPrediction = true) ∧
    (∀ apiURL d, (callPredictionAPI w apiURL d).err = none →
      (callPredictionAPI w apiURL d).prediction ≠ none) := by
  refine ⟨?_, fun apiURL d h => callPredictionAPI_prediction_of_nil_err w apiURL d h⟩
  intro route
  cases route with
  | home => simp [handle, getHome]
  | predict =>
    simp only [handle]
    rcases hbind : w.ShouldBind FormData.zero with ⟨formData, _ | e⟩
    · have h := bound_form_page cfg w formData hbind
      exact ⟨fun _ => h.1, fun _ => h.2⟩
    · rw [postPredict_of_bind_error cfg w formData e hbind]
      simp

/-- C10: for every startup configuration and whatever requests were served
before, `GET /` answers 200 with the form values sqft 0, bedrooms 1,
bathrooms 0.0, location "string", yearBuilt 2023, a nil prediction,
`ShowPrediction` false and empty error and success messages. -/
theorem home_always_renders_defaults (cfg : Config) (earlier : List (Route × World))
    (w : World) :
    (serve cfg (earlier ++ [(Route.home, w)])).getLast? = some (getHome cfg) ∧
    (getHome cfg).status = 200 ∧
    (getHome cfg).data.FormData =
      { Sqft := 0, Bedrooms := 1, Bathrooms := .finite 0, Location := "string",
        YearBuilt := 2023 } ∧
    (getHome cfg).data.Prediction = none ∧
    (getHome cfg).data.ShowPrediction = false ∧
    (getHome cfg).data.ErrorMessage = "" ∧
    (getHome cfg).data.SuccessMessage = "" := by
  refine ⟨?_, rfl, rfl, rfl, rfl, rfl, rfl⟩
  simp [serve, handle]

/-- C2, as stated, fails: the service answers 201, a 2xx status, with a body
that decodes to `demoPrediction`, yet `callPredictionAPI` returns an error and
the page shows the fallback instead of the decoded response. -/
theorem created_status_takes_fallback :
    (∃ resp b, (answeringWorld demoForm 201 demoBody).Post (predictURL demoConfig.apiURL)
        "application/json" ⟨apiData demoCaseTable demoForm⟩ = .ok resp ∧
      200 ≤ resp.StatusCode ∧ resp.StatusCode ≤ 299 ∧ resp.Body = .ok b ∧
      (answeringWorld demoForm 201 demoBody).Unmarshal b = .ok demoPrediction) ∧
    (callPredictionAPI (answeringWorld demoForm 201 demoBody) demoConfig.apiURL
      (apiData demoCaseTable demoForm)).err = some "API returned status: 201" ∧
    (postPredict demoConfig (answeringWorld demoForm 201 demoBody)).data.Prediction
      = some mockPrediction ∧
    (postPredict demoConfig (answeringWorld demoForm 201 demoBody)).data.Prediction
      ≠ some demoPrediction := by
  refine ⟨⟨_, demoBody, rfl, by decide, by decide, rfl, rfl⟩, rfl, rfl, ?_⟩
  have h : (postPredict demoConfig (answeringWorld demoForm 201 demoBody)).data.Prediction
      = some mockPrediction := rfl
  rw [h]
  simp [mockPrediction, demoPrediction]

/-- C2, amended: for every bound form, `callPredictionAPI` returns an error,
and the page takes the fallback, if and only if the request does not
serialise, the call has a transport failure, the status is not exactly 200,
the body cannot be read, or the body does not decode; for every response with
status 200 whose body is read and decodes, `callPredictionAPI` returns no
error and the prediction of the page is the decoded response verbatim. -/
theorem fallback_iff_not_status_200_decoded (cfg : Config) (w : World) (formData : FormData)
    (hbind : w.ShouldBind FormData.zero = (formData, none)) :
    ((callPredictionAPI w cfg.apiURL (apiData w.unicodeToLower formData)).err ≠ none ↔
      (formData.Bathrooms.isFinite = false ∨
       (∃ e, w.Post (predictURL cfg.apiURL) "application/json"
          ⟨apiData w.unicodeToLower formData⟩ = .error e) ∨
       (∃ resp, w.Post (predictURL cfg.apiURL) "application/json"
          ⟨apiData w.unicodeToLower formData⟩ = .ok resp ∧
          (resp.StatusCode ≠ 200 ∨ (∃ e, resp.Body = .error e) ∨
            (∃ b e, resp.Body = .ok b ∧ w.Unmarshal b = .error e))))) ∧
    ((callPredictionAPI w cfg.apiURL (apiData w.unicodeToLower formData)).err ≠ none →
      (postPredict cfg w).data.Prediction = some mockPrediction) ∧
    (∀ resp b p, formData.Bathrooms.isFinite = true →
      w.Post (predictURL cfg.apiURL) "application/json"
        ⟨apiData w.unicodeToLower formData⟩ = .ok resp →
      resp.StatusCode = 200 → resp.Body = .ok b → w.Unmarshal b = .ok p →
      (callPredictionAPI w cfg.apiURL (apiData w.unicodeToLower formData)).err = none ∧
      (callPredictionAPI w cfg.apiURL (apiData w.unicodeToLower formData)).prediction = some p ∧
      (postPredict cfg w).data.Prediction = some p) := by
  refine ⟨?_, fun herr => postPredict_prediction_of_err cfg w formData hbind herr, ?_⟩
  · rw [ne_eq, callPredictionAPI_err_eq_none_iff]
    show ¬ (formData.Bathrooms.isFinite = true ∧ _) ↔ _
    constructor
    · intro h
      cases hfin : formData.Bathrooms.isFinite
      · exact Or.inl rfl
      · right
        cases hpost : w.Post (predictURL cfg.apiURL) "application/json"
            ⟨apiData w.unicodeToLower formData⟩ with
        | error e => exact Or.inl ⟨e, rfl⟩
        | ok resp =>
          refine Or.inr ⟨resp, rfl, ?_⟩
          by_cases hstatus : resp.StatusCode = 200
          · right
            cases hbody : resp.Body with
            | error e => exact Or.inl ⟨e, rfl⟩
            | ok b =>
              right
              cases hdec : w.Unmarshal b with
              | error e => exact ⟨b, e, rfl, hdec⟩
              | ok p => exact absurd ⟨hfin, resp, b, p, hpost, hstatus, hbody, hdec⟩ h
          · exact Or.inl hstatus
    · rintro hbad ⟨hfin, resp, b, p, hpost, hstatus, hbody, hdec⟩
      rcases hbad with hnf | ⟨e, he⟩ | ⟨resp', hresp', hs | ⟨e, he⟩ | ⟨b', e, hb', he⟩⟩
      · rw [hnf] at hfin
        cases hfin
      · rw [he] at hpost
        cases hpost
      · rw [hresp'] at hpost
        cases hpost
        exact hs hstatus
      · rw [hresp'] at hpost
        cases hpost
        rw [he] at hbody
        cases hbody
      · rw [hresp'] at hpost
        cases hpost
        rw [hb'] at hbody
        cases hbody
        rw [he] at hdec
        cases hdec
  · intro resp b p hfin hpost hstatus hbody hdec
    have hcall := callPredictionAPI_of_decoded w cfg.apiURL (apiData w.unicodeToLower formData)
      resp b p hfin hpost hstatus hbody hdec
    have herr : (callPredictionAPI w cfg.apiURL (apiData w.unicodeToLower formData)).err = none := by
      rw [hcall]
    refine ⟨herr, by rw [hcall], ?_⟩
    rw [postPredict_prediction_of_nil_err cfg w formData hbind herr, hcall]

/-- C2, amended, at a concrete input: the service answers 200 with a body that
decodes, and the page shows the decoded response. -/
theorem fallback_iff_not_status_200_decoded_witness :
    (answeringWorld demoForm 200 demoBody).ShouldBind FormData.zero = (demoForm, none) ∧
    (postPredict demoConfig (answeringWorld demoForm 200 demoBody)).data.Prediction
      = some demoPrediction :=
  ⟨rfl,
    ((fallback_iff_not_status_200_decoded demoConfig (answeringWorld demoForm 200 demoBody)
      demoForm rfl).2.2 ⟨200, .ok demoBody⟩ demoBody demoPrediction rfl rfl rfl rfl rfl).2.2⟩

/-- C8, as stated, fails: the service answers 200 with a body whose
`confidence_interval` is `[5,1]`; the response reaches the page state as
decoded, and its interval is not an ordered pair. -/
theorem decoded_interval_reaches_page_unordered :
    (postPredict demoConfig (answeringWorld demoForm 200 reversedBody)).data.Prediction
      = some reversedPrediction ∧
    reversedPrediction.ConfidenceInterval = [.finite 5, .finite 1] ∧
    orderedPair reversedPrediction.ConfidenceInterval = false := by
  refine ⟨rfl, rfl, ?_⟩
  simp only [reversedPrediction, orderedPair, F64.le]
  norm_num

/-- C8, amended: the fallback response has a `confidenceInterval` that is an
ordered pair, 420430.5 then 513859.5; a response decoded from a remote body
reaches the page state exactly as `json.Unmarshal` produced it, its interval
included, whatever its length and order. -/
theorem interval_ordered_for_fallback_verbatim_for_decoded (cfg : Config) (w : World)
    (formData : FormData) (hbind : w.ShouldBind FormData.zero = (formData, none)) :
    orderedPair mockPrediction.ConfidenceInterval = true ∧
    ((callPredictionAPI w cfg.apiURL (apiData w.unicodeToLower formData)).err ≠ none →
      (postPredict cfg w).data.Prediction = some mockPrediction ∧
      mockPrediction.ConfidenceInterval = [.finite 420430.5, .finite 513859.5]) ∧
    ((callPredictionAPI w cfg.apiURL (apiData w.unicodeToLower formData)).err = none →
      ∃ resp b p, w.Post (predictURL cfg.apiURL) "application/json"
          ⟨apiData w.unicodeToLower formData⟩ = .ok resp ∧
        resp.Body = .ok b ∧ w.Unmarshal b = .ok p ∧
        (postPredict cfg w).data.Prediction = some p) := by
  refine ⟨?_, fun herr => ⟨postPredict_prediction_of_err cfg w formData hbind herr, rfl⟩, ?_⟩
  · simp only [mockPrediction, orderedPair, F64.le]
    norm_num
  · intro herr
    obtain ⟨hfin, resp, b, p, hpost, hstatus, hbody, hdec⟩ :=
      (callPredictionAPI_err_eq_none_iff _ _ _).1 herr
    refine ⟨resp, b, p, hpost, hbody, hdec, ?_⟩
    rw [postPredict_prediction_of_nil_err cfg w formData hbind herr,
      callPredictionAPI_of_decoded w cfg.apiURL _ resp b p hfin hpost hstatus hbody hdec]

/-- C8, amended, at a concrete input: the service is unreachable and the page
shows the fallback interval. -/
theorem interval_ordered_for_fallback_verbatim_for_decoded_witness :
    (unreachableWorld demoForm).ShouldBind FormData.zero = (demoForm, none) ∧
    (postPredict demoConfig (unreachableWorld demoForm)).data.Prediction = some mockPrediction ∧
    mockPrediction.ConfidenceInterval = [.finite 420430.5, .finite 513859.5] :=
  ⟨rfl,
    (interval_ordered_for_fallback_verbatim_for_decoded demoConfig (unreachableWorld demoForm)
      demoForm rfl).2.1 (by decide)⟩

/-- C9, as stated, fails in both directions. For a request whose `Bathrooms`
is NaN, a value the form binder produces, `callPredictionAPI` returns the
serialisation error before it has a client: no call of `client.Post`, no POST
on the wire. And when the service answers with a 307 redirect, the single call
of `client.Post` puts two POST requests on the wire. -/
theorem outbound_post_count_is_not_always_one :
    (apiData demoCaseTable nanForm).Bathrooms = .nan ∧
    (callPredictionAPI (answeringWorld nanForm 200 demoBody) demoConfig.apiURL
      (apiData demoCaseTable nanForm)).posts = [] ∧
    (callPredictionAPI (answeringWorld nanForm 200 demoBody) demoConfig.apiURL
      (apiData demoCaseTable nanForm)).wire = 0 ∧
    (callPredictionAPI (answeringWorld nanForm 200 demoBody) demoConfig.apiURL
      (apiData demoCaseTable nanForm)).err
      = some "failed to marshal request data: json: unsupported value: NaN" ∧
    (postPredict demoConfig (answeringWorld nanForm 200 demoBody)).posts.length ≠ 1 ∧
    (callPredictionAPI (redirectWorld demoForm) demoConfig.apiURL
      (apiData demoCaseTable demoForm)).posts.length = 1 ∧
    (callPredictionAPI (redirectWorld demoForm) demoConfig.apiURL
      (apiData demoCaseTable demoForm)).wire = 2 := by
  refine ⟨rfl, rfl, rfl, rfl, ?_, rfl, rfl⟩
  have h : (postPredict demoConfig (answeringWorld nanForm 200 demoBody)).posts = [] := rfl
  rw [h]
  decide

/-- C9, amended: one invocation of `callPredictionAPI` calls `client.Post`
exactly once, with the URL and the serialised request, when the `Bathrooms`
value is finite, and not at all when it is NaN or infinite, where it returns
before the call; in no case does it call `client.Post` a second time. The
POST requests on the wire are those the HTTP client sends during that single
call, and none when there is no call. -/
theorem one_client_call_iff_request_serialises (w : World) (apiURL : String)
    (d : PredictionRequest) :
    (callPredictionAPI w apiURL d).posts =
      (if d.Bathrooms.isFinite then [⟨predictURL apiURL, "application/json", ⟨d⟩⟩] else []) ∧
    (callPredictionAPI w apiURL d).posts.length = (if d.Bathrooms.isFinite then 1 else 0) ∧
    (callPredictionAPI w apiURL d).posts.length ≤ 1 ∧
    (callPredictionAPI w apiURL d).wire =
      (if d.Bathrooms.isFinite then w.Wire (predictURL apiURL) "application/json" ⟨d⟩ else 0) := by
  have h := callPredictionAPI_posts w apiURL d
  refine ⟨h, ?_, ?_, callPredictionAPI_wire w apiURL d⟩ <;> rw [h] <;>
    cases d.Bathrooms.isFinite <;> simp

/-- C3, as stated, fails: the location is the one rune U+1D400, an upper-case
letter for which the case table has no lower-case form; the outbound location
is that same rune, so it contains an upper-case letter. -/
theorem bold_capital_goes_out_unchanged :
    (answeringWorld boldForm 200 demoBody).ShouldBind FormData.zero = (boldForm, none) ∧
    (postPredict demoConfig (answeringWorld boldForm 200 demoBody)).apiCalls =
      [("http://localhost:8000/latest",
        { Sqft := 1500, Bedrooms := 3, Bathrooms := .finite 2,
          Location := ⟨[Char.ofNat 0x1D400]⟩, YearBuilt := 2001, Condition := "Good" })] ∧
    (Char.ofNat 0x1D400).toNat = 0x1D400 ∧
    inUpperRanges (Char.ofNat 0x1D400) = true ∧
    (∃ c ∈ (apiData demoCaseTable boldForm).Location.data, inUpperRanges c = true) := by
  refine ⟨rfl, rfl, rfl, by decide, Char.ofNat 0x1D400, ?_, by decide⟩
  decide

/-- C3, amended: for every bound form, with no restriction on its values, the
`PredictionRequest` the `POST /predict` handler passes to `callPredictionAPI`
copies `Sqft`, `Bedrooms`, `Bathrooms` and `YearBuilt`, has `Condition`
"Good" and has as location `strings.ToLower` of the form's location, rune by
rune ("Austin" gives "austin"): an ASCII rune goes out as an ASCII rune that
is none of `A` to `Z` and that lower-casing leaves as it is, a rune above
ASCII goes out as the case table gives it. When the form's location is ASCII,
the outbound location holds no upper-case letter and lower-casing it again
changes nothing. -/
theorem outbound_request_copies_and_lowercases (cfg : Config) (w : World)
    (formData : FormData) (hbind : w.ShouldBind FormData.zero = (formData, none)) :
    ∃ d : PredictionRequest,
      (postPredict cfg w).apiCalls = [(cfg.apiURL, d)] ∧
      d.Sqft = formData.Sqft ∧ d.Bedrooms = formData.Bedrooms ∧
      d.Bathrooms = formData.Bathrooms ∧ d.YearBuilt = formData.YearBuilt ∧
      d.Condition = "Good" ∧
      d.Location = ToLower w.unicodeToLower formData.Location ∧
      d.Location.data = formData.Location.data.map (runeToLower w.unicodeToLower) ∧
      ToLower w.unicodeToLower "Austin" = "austin" ∧
      (∀ c : Char, c.toNat < 128 →
        (runeToLower w.unicodeToLower c).toNat < 128 ∧
        ¬ (65 ≤ (runeToLower w.unicodeToLower c).toNat ∧
            (runeToLower w.unicodeToLower c).toNat ≤ 90) ∧
        runeToLower w.unicodeToLower (runeToLower w.unicodeToLower c)
          = runeToLower w.unicodeToLower c) ∧
      (∀ c : Char, 128 ≤ c.toNat → runeToLower w.unicodeToLower c = w.unicodeToLower c) ∧
      ((∀ c ∈ formData.Location.data, c.toNat < 128) →
        (∀ c ∈ d.Location.data, c.toNat < 128 ∧ ¬ (65 ≤ c.toNat ∧ c.toNat ≤ 90)) ∧
        (∀ c ∈ d.Location.data, inUpperRanges c = false) ∧
        ToLower w.unicodeToLower d.Location = d.Location) := by
  refine ⟨apiData w.unicodeToLower formData, ?_, rfl, rfl, rfl, rfl, rfl, rfl, rfl, rfl,
    fun c hc => runeToLower_ascii w.unicodeToLower c hc,
    fun c hc => runeToLower_above_ascii w.unicodeToLower c hc, ?_⟩
  · rw [postPredict_of_bound cfg w formData hbind]
  · intro hascii
    have hrunes := ToLower_ascii_runes w.unicodeToLower formData.Location hascii
    refine ⟨hrunes, ?_, ToLower_ascii_idem w.unicodeToLower formData.Location hascii⟩
    intro c hc
    have h := hrunes c hc
    simp only [inUpperRanges, decide_eq_false_iff_not]
    omega

/-- C3, amended, at a concrete input: negative numbers pass through and
"Austin" goes out as "austin", which lower-casing leaves as it is. -/
theorem outbound_request_copies_and_lowercases_witness :
    (answeringWorld negativeForm 200 demoBody).ShouldBind FormData.zero = (negativeForm, none) ∧
    (∀ c ∈ negativeForm.Location.data, c.toNat < 128) ∧
    (postPredict demoConfig (answeringWorld negativeForm 200 demoBody)).apiCalls =
      [("http://localhost:8000/latest",
        { Sqft := -20, Bedrooms := -1, Bathrooms := .finite 1.5, Location := "austin",
          YearBuilt := -500, Condition := "Good" })] ∧
    ToLower demoCaseTable "austin" = "austin" := by
  have hascii : ∀ c ∈ negativeForm.Location.data, c.toNat < 128 := by decide
  obtain ⟨d, _, _, _, _, _, _, hloc, _, _, _, _, hlow⟩ :=
    outbound_request_copies_and_lowercases demoConfig
      (answeringWorld negativeForm 200 demoBody) negativeForm rfl
  have h := (hlow hascii).2.2
  rw [hloc] at h
  exact ⟨rfl, hascii, rfl, h⟩

/-- C7, as stated, fails: a base address with two trailing slashes loses one,
and the URL ends in `//predict`. -/
theorem double_slash_base_keeps_a_slash :
    predictURL "http://localhost:8000//" = "http://localhost:8000//predict" ∧
    HasSuffix (predictURL "http://localhost:8000//") "//predict" = true := by
  decide

/-- C7, amended: the outbound URL is the base address with one trailing slash
stripped, followed by "/predict": for every base address `s` that does not
end in "/", both `s` and `s` followed by "/" give `s` followed by "/predict";
and for every base address the URL ends in "//predict" exactly when the base
address ends in "//". The POST of `callPredictionAPI` goes to that URL. -/
theorem predict_url_strips_one_slash (s : String) (hs : HasSuffix s "/" = false) :
    predictURL s = s ++ "/predict" ∧
    predictURL (s ++ "/") = s ++ "/predict" ∧
    (∀ b, HasSuffix (predictURL b) "//predict" = HasSuffix b "//") ∧
    (∀ w b d, ∀ p ∈ (callPredictionAPI w b d).posts, p.url = predictURL b) := by
  refine ⟨?_, ?_, predictURL_double_slash, ?_⟩
  · rw [predictURL, TrimSuffix_of_not_suffix s "/" hs]
  · rw [predictURL, TrimSuffix_append]
  · intro w b d p hp
    rw [callPredictionAPI_posts] at hp
    cases hfin : d.Bathrooms.isFinite
    · simp [hfin] at hp
    · simp [hfin] at hp
      rw [hp]

/-- C7, amended, at a concrete input: the default base address, with and
without a trailing slash. -/
theorem predict_url_strips_one_slash_witness :
    HasSuffix "http://localhost:8000/latest" "/" = false ∧
    predictURL "http://localhost:8000/latest" = "http://localhost:8000/latest/predict" ∧
    predictURL "http://localhost:8000/latest/" = "http://localhost:8000/latest/predict" :=
  ⟨by decide,
    (predict_url_strips_one_slash "http://localhost:8000/latest" (by decide)).1,
    (predict_url_strips_one_slash "http://localhost:8000/latest" (by decide)).2.1⟩

end HousePrice
